import Mathlib

/-!
# VelocityChip backend — shallow embedding and verification

This file embeds the simulation core of `src/velocitychip-backend.js`
(the `CircuitSimulator` class, the WebSocket session registry built on
`designs` / `activeSimulations` / `clients`, and the batch route
`POST /api/designs/:id/simulate`) and settles the frozen claims about it.

Modelling conventions, chosen to mirror the JavaScript faithfully:

* JavaScript numbers are modelled as `ℚ`.  The transcendental library
  functions the code calls (`Math.sin`, `Math.exp`, `Math.sqrt`, `Math.PI`)
  and every `Math.random()` draw are not fixed constants of the model but
  inputs, packaged in a `MathEnv`; each syntactic `Math.random()` call site
  is identified by a string tag.  `Date.now()` is likewise an input
  (`now : ℕ`, milliseconds).  No claim under study depends on the numeric
  value of a transcendental, only on how the code plumbs these calls.
* A property value is recorded as the result its string would produce
  under `parseFloat`: `some q` when it parses to the number `q`,
  `none` when it is missing or gives `NaN`.  The idiom
  `parseFloat(x) || d` is `propOr` below (`NaN` and `0` both fall back).
* A component whose `properties` field is absent (`undefined` in JS) makes
  any property access throw `TypeError`; fallible computations therefore
  return `Except Unit _`, and `getProps` is the single throw site.
* JavaScript objects live on a heap and are passed by reference.  The
  places where reference sharing is observable — the components array
  shared between a stored design and a `CircuitSimulator`, and the
  simulator object shared between an `activeSimulations` entry and the
  closure of its `setInterval` callback — are modelled with explicit
  heaps (`compHeap`, `simHeap`) of numbered cells inside `ServerState`.
* JS `Map`s are association lists with unique keys (`aset` updates in
  place preserving insertion order, `aerase` removes the key, exactly the
  `Map.set` / `Map.delete` behaviour on unique-keyed maps).
* `setInterval` handles are numbered cells in `ServerState.intervals`;
  firing a handle once is `tick`, a run of timer firings is `runTicks`.
  The `setTimeout` auto-stop scheduled by `startRealTimeSimulation` is
  not modelled: no claim under study quantifies over its firing, and it
  only ever invokes the modelled `stopRealTimeSimulation`.
-/

namespace VelocityChip

/-- Result of `parseFloat` on a stored property value: `none` stands for
`NaN` (missing key or unparseable string), `some q` for the number `q`. -/
abbrev PVal := Option ℚ

/-- A component descriptor.  `properties` is `none` when the JS object has
no `properties` field at all (any access then throws `TypeError`). -/
structure Component where
  id : Nat
  type : String
  name : String
  properties : Option (List (String × PVal))
deriving DecidableEq

/-- A connection; only its presence (the count) feeds the model. -/
structure Connection where
  fromId : Nat
  toId : Nat
  signal : String
deriving DecidableEq

/-- One per-component node record of a snapshot. -/
structure NodeRec where
  voltage : ℚ
  current : ℚ
  power : ℚ
  temperature : ℚ
  frequency : ℚ
deriving DecidableEq

/-- A characteristics value: a number, a string, or JS `Infinity`
(produced by `outputResistance` when current is zero). -/
inductive CVal where
  | num (q : ℚ)
  | str (s : String)
  | inf
deriving DecidableEq

/-- `analyzeComponent`'s result. -/
structure Analysis where
  opVoltage : ℚ
  opCurrent : ℚ
  opPower : ℚ
  characteristics : List (String × CVal)
  status : String
deriving DecidableEq

/-- The `performance` block of a snapshot. -/
structure Perf where
  totalPower : ℚ
  maxVoltage : ℚ
  maxCurrent : ℚ
  efficiency : ℚ
  propagationDelay : ℚ
  bandwidth : ℚ
deriving DecidableEq

/-- One snapshot, as built by `CircuitSimulator.simulate`. -/
structure SimResults where
  timestamp : ℕ
  timeStep : ℚ
  nodes : List (Nat × NodeRec)
  components : List (Nat × Analysis)
  performance : Perf
deriving DecidableEq

/-- The ambient math library and randomness: `Math.sin`, `Math.exp`,
`Math.sqrt`, `Math.PI`, and one draw per `Math.random()` call site
(identified by a string tag). -/
structure MathEnv where
  sin : ℚ → ℚ
  exp : ℚ → ℚ
  sqrt : ℚ → ℚ
  pi : ℚ
  random : String → ℚ

/-!
Exact rational arithmetic, implemented over `Rat.divInt` so that every
concrete evaluation reduces inside the kernel (the library's own `Rat.add`
and friends are `@[irreducible]`, which blocks `decide`).  The `q`-ops are
installed as high-priority instances, so the arithmetic notation in the
model below denotes them; the `qadd_spec` … `qpow_spec` lemmas prove each
one equal to the library operation, so this is only a change of
implementation, not of meaning.
-/

/-- Addition on `ℚ`, kernel-reducible. -/
def qadd (a b : ℚ) : ℚ := Rat.divInt (a.num * b.den + b.num * a.den) (a.den * b.den)

/-- Negation on `ℚ`, kernel-reducible. -/
def qneg (a : ℚ) : ℚ := Rat.divInt (-a.num) a.den

/-- Subtraction on `ℚ`, kernel-reducible. -/
def qsub (a b : ℚ) : ℚ := Rat.divInt (a.num * b.den - b.num * a.den) (a.den * b.den)

/-- Multiplication on `ℚ`, kernel-reducible. -/
def qmul (a b : ℚ) : ℚ := Rat.divInt (a.num * b.num) (a.den * b.den)

/-- Division on `ℚ`, kernel-reducible (division by zero gives zero, and
the model never divides by zero at a claim-relevant spot; see `C10`). -/
def qdiv (a b : ℚ) : ℚ := Rat.divInt (a.num * b.den) (b.num * a.den)

/-- Power on `ℚ` by a natural exponent, kernel-reducible. -/
def qpow (a : ℚ) (n : ℕ) : ℚ := Rat.divInt (a.num ^ n) ((a.den : ℤ) ^ n)

instance (priority := 10000) : HAdd ℚ ℚ ℚ := ⟨qadd⟩

instance (priority := 10000) : HSub ℚ ℚ ℚ := ⟨qsub⟩

instance (priority := 10000) : HMul ℚ ℚ ℚ := ⟨qmul⟩

instance (priority := 10000) : HDiv ℚ ℚ ℚ := ⟨qdiv⟩

instance (priority := 10000) : HPow ℚ ℕ ℚ := ⟨qpow⟩

instance (priority := 10000) : Neg ℚ := ⟨qneg⟩

instance (priority := 10000) : Add ℚ := ⟨qadd⟩

instance (priority := 10000) : Sub ℚ := ⟨qsub⟩

instance (priority := 10000) : Mul ℚ := ⟨qmul⟩

instance (priority := 10000) : Div ℚ := ⟨qdiv⟩

instance (priority := 10000) : Pow ℚ ℕ := ⟨qpow⟩

section AList

variable {κ α : Type} [DecidableEq κ]

/-- `Map.get` on an insertion-ordered association list. -/
def alookup : List (κ × α) → κ → Option α
  | [], _ => none
  | (k', v) :: t, k => if k' = k then some v else alookup t k

/-- `Map.set`: replace in place, else append. -/
def aset : List (κ × α) → κ → α → List (κ × α)
  | [], k, v => [(k, v)]
  | (k', v') :: t, k, v => if k' = k then (k, v) :: t else (k', v') :: aset t k v

/-- `Map.delete` (keys are unique in a JS `Map`, so filtering the key out
is exactly deletion). -/
def aerase (l : List (κ × α)) (k : κ) : List (κ × α) :=
  l.filter (fun p => p.1 ≠ k)

/-- Mutate the value stored under a key in place (keys are unique). -/
def aupdate : List (κ × α) → κ → (α → α) → List (κ × α)
  | [], _, _ => []
  | (k', v) :: t, k, f => if k' = k then (k', f v) :: t else (k', v) :: aupdate t k f

end AList

/-- `parseFloat(component.properties[k])`: `none` both for a missing key
(`parseFloat(undefined) = NaN`) and for an unparseable value. -/
def parseProp (ps : List (String × PVal)) (k : String) : Option ℚ :=
  match alookup ps k with
  | none => none
  | some v => v

/-- JavaScript `x || d` on numbers already known not to be `NaN`:
`0` (and `-0`) fall back to the default. -/
def jsOr (q d : ℚ) : ℚ := if q = 0 then d else q

/-- The pervasive `parseFloat(component.properties.k) || d` idiom. -/
def propOr (ps : List (String × PVal)) (k : String) (d : ℚ) : ℚ :=
  match parseProp ps k with
  | none => d
  | some q => jsOr q d

/-- Accessing `component.properties` throws `TypeError` when the field is
absent; this is the single throw site of the component model. -/
def getProps (c : Component) : Except Unit (List (String × PVal)) :=
  match c.properties with
  | none => Except.error ()
  | some ps => Except.ok ps

/-- `Math.abs`. -/
def jsAbs (q : ℚ) : ℚ := if q < 0 then -q else q

/-- `Math.max` of two numbers. -/
def jsMax (a b : ℚ) : ℚ := if a < b then b else a

/-- `Math.max(...list)` over a non-empty spread (the guarded call sites
never reach the empty case; `0` there is arbitrary). -/
def listMax : List ℚ → ℚ
  | [] => 0
  | h :: t => t.foldl jsMax h

/-- `CircuitSimulator.calculateNodeVoltage`.  `now` is `Date.now()` in
milliseconds; note that the per-type oscillation terms read `now`, never
the simulator's `timeStep`. -/
def calculateNodeVoltage (c : Component) (env : MathEnv) (now : ℕ) : Except Unit ℚ :=
  if c.type = "transistor" then
    (getProps c).map (fun ps =>
      let _vth := propOr ps "threshold" (7/10)
      let noise := (env.random "transistorNoise" - 5/10) * (1/10)
      (33/10) * (1 + env.sin ((now : ℚ) / 1000) * (2/10)) + noise)
  else if c.type = "resistor" then
    (getProps c).map (fun ps =>
      let resistance := propOr ps "resistance" 1000
      let thermalNoise := env.sqrt (4 * (138/10^25) * 300 * 1000) * env.random "johnsonNoise"
      (33/10) * (1 - resistance / 10000) + thermalNoise)
  else if c.type = "capacitor" then
    (getProps c).map (fun ps =>
      let capacitance := propOr ps "capacitance" (1/10^12)
      let chargeTime := ((now % 2000 : ℕ) : ℚ) / 2000
      let rcConstant := 1000 * capacitance
      (33/10) * (1 - env.exp (-(chargeTime / rcConstant))))
  else if c.type = "inductor" then
    (getProps c).map (fun ps =>
      let _inductance := propOr ps "inductance" (1/10^6)
      (33/10) + (5/10) * env.sin ((now : ℚ) / 500) * env.exp (-((now : ℚ) / 5000)))
  else if c.type = "diode" then
    (getProps c).map (fun ps =>
      let vf := propOr ps "forwardVoltage" (7/10)
      let tempCoeff := (-(2/1000) : ℚ)
      let temp := 25 + env.random "diodeTemp" * 10
      vf + tempCoeff * (temp - 25) + env.random "diodeJitter" * (1/100))
  else
    Except.ok ((33/10) + env.random "defaultNoise" * (1/10))

/-- `CircuitSimulator.calculateCurrent`. -/
def calculateCurrent (c : Component) (voltage : ℚ) (env : MathEnv) : Except Unit ℚ :=
  if c.type = "transistor" then
    (getProps c).map (fun ps =>
      let width := propOr ps "width" (1/10^5)
      let length := propOr ps "length" (5/10^7)
      let mobility := (4/100 : ℚ)
      let cox := (39/10) * (8854/10^17) / (3/10^9)
      let vth := (7/10 : ℚ)
      let vgs := voltage
      let vds := voltage * (8/10)
      if vgs > vth then
        (1/2) * mobility * cox * (width / length) * (vgs - vth)^2 * (1 + (1/10) * vds) * 10^6
      else
        1/1000 + env.random "leakageJitter" * (1/10^4))
  else if c.type = "resistor" then
    (getProps c).map (fun ps =>
      let resistance := propOr ps "resistance" 1000
      voltage / resistance)
  else if c.type = "capacitor" then
    (getProps c).map (fun ps =>
      let frequency := (1000 : ℚ)
      let capacitance := propOr ps "capacitance" (1/10^12)
      let impedance := 1 / (2 * env.pi * frequency * capacitance)
      voltage / impedance)
  else if c.type = "inductor" then
    (getProps c).map (fun ps =>
      let inductance := propOr ps "inductance" (1/10^6)
      let xl := 2 * env.pi * 1000 * inductance
      voltage / xl)
  else
    Except.ok (voltage / 1000)

/-- `CircuitSimulator.calculateTemperature`. -/
def calculateTemperature (power : ℚ) (env : MathEnv) : ℚ :=
  let ambientTemp := (25 : ℚ)
  let thermalResistance := (100 : ℚ)
  ambientTemp + power * thermalResistance + env.random "tempJitter" * 2

/-- `CircuitSimulator.calculateFrequency`. -/
def calculateFrequency (c : Component) (env : MathEnv) : Except Unit ℚ :=
  let baseFreq := (1000 : ℚ)
  if c.type = "transistor" then
    Except.ok (baseFreq * 10 + env.random "transistorFreq" * 1000)
  else if c.type = "capacitor" then
    (getProps c).map (fun ps =>
      let cc := propOr ps "capacitance" (1/10^12)
      1 / (2 * env.pi * 1000 * cc))
  else
    Except.ok (baseFreq + env.random "freqJitter" * 500)

/-- `CircuitSimulator.analyzeComponent`.  The `status` assignments of the
transistor branch are the two sequential `if` statements of the source,
so the `overcurrent` check is applied last and overwrites. -/
def analyzeComponent (c : Component) (voltage current : ℚ) (env : MathEnv) :
    Except Unit Analysis :=
  if c.type = "transistor" then
    Except.ok
      { opVoltage := voltage, opCurrent := current, opPower := voltage * current
        characteristics :=
          [("region", CVal.str (if voltage > 7/10 then "saturation" else "cutoff")),
           ("transconductance",
             CVal.num (if voltage - 7/10 ≠ 0 then 2 * current / (voltage - 7/10) else 0)),
           ("outputResistance",
             if current ≠ 0 then CVal.num (voltage / current) else CVal.inf),
           ("gainBandwidth", CVal.num (10^9))]
        status :=
          let s1 := if voltage > 5 then "overvoltage" else "normal"
          if current > 1/10 then "overcurrent" else s1 }
  else if c.type = "resistor" then
    (getProps c).map (fun ps =>
      let resistance := propOr ps "resistance" 1000
      let maxPower := propOr ps "power" (25/100)
      let actualPower := voltage * current
      { opVoltage := voltage, opCurrent := current, opPower := voltage * current
        characteristics :=
          [("resistance", CVal.num resistance),
           ("powerDissipation", CVal.num actualPower),
           ("powerRating", CVal.num maxPower),
           ("efficiency", CVal.num (actualPower / maxPower * 100))]
        status := if actualPower > maxPower then "overpower" else "normal" })
  else if c.type = "capacitor" then
    (getProps c).map (fun ps =>
      let capacitance := propOr ps "capacitance" (1/10^12)
      let maxVoltage := propOr ps "voltage" 5
      { opVoltage := voltage, opCurrent := current, opPower := voltage * current
        characteristics :=
          [("capacitance", CVal.num capacitance),
           ("chargeStored", CVal.num (capacitance * voltage)),
           ("energy", CVal.num ((5/10) * capacitance * voltage * voltage)),
           ("impedance", CVal.num (1 / (2 * env.pi * 1000 * capacitance)))]
        status := if voltage > maxVoltage then "overvoltage" else "normal" })
  else
    Except.ok
      { opVoltage := voltage, opCurrent := current, opPower := voltage * current
        characteristics := []
        status := "normal" }

/-- The spec's `computeElectricalState` contract: the per-component node
record a tick computes (voltage, current, power, temperature, frequency),
in the evaluation order of `CircuitSimulator.simulate`. -/
def computeElectricalState (c : Component) (env : MathEnv) (now : ℕ) :
    Except Unit NodeRec := do
  let nodeVoltage ← calculateNodeVoltage c env now
  let current ← calculateCurrent c nodeVoltage env
  let power := nodeVoltage * current
  let frequency ← calculateFrequency c env
  pure { voltage := nodeVoltage, current := current, power := power
         temperature := calculateTemperature power env, frequency := frequency }

/-- The per-component `try`/`catch` block of `CircuitSimulator.simulate`:
a failed component degrades to the zeroed node record and an `error`
analysis instead of aborting. -/
def componentTryBlock (c : Component) (env : MathEnv) (now : ℕ) :
    NodeRec × Analysis :=
  match (do
      let n ← computeElectricalState c env now
      let a ← analyzeComponent c n.voltage n.current env
      pure (n, a) : Except Unit (NodeRec × Analysis)) with
  | Except.ok x => x
  | Except.error _ =>
      (⟨0, 0, 0, 25, 1000⟩,
       { opVoltage := 0, opCurrent := 0, opPower := 0
         characteristics := [], status := "error" })

/-- `CircuitSimulator.calculateEfficiency`. -/
def calculateEfficiency (nodes : List (Nat × NodeRec)) : ℚ :=
  let vals := nodes.map (fun p => p.2)
  let totalPowerIn :=
    (vals.filter (fun n => decide (n.power > 0))).foldl (fun s n => s + n.power) 0
  let totalPowerOut :=
    (vals.filter (fun n => decide (n.power < 0))).foldl (fun s n => s + jsAbs n.power) 0
  if totalPowerIn > 0 then totalPowerOut / totalPowerIn * 100 else 0

/-- `CircuitSimulator.calculatePropagationDelay`. -/
def calculatePropagationDelay (comps : List Component) (conns : List Connection) : ℚ :=
  let componentDelay := (comps.length : ℚ) * (1/10^11)
  let wireDelay := (conns.length : ℚ) * (5/10^12)
  (componentDelay + wireDelay) * 10^12

/-- `CircuitSimulator.calculateBandwidth`: re-evaluates
`calculateFrequency` for every component, outside the per-component
`try`/`catch` of `simulate` — so it can throw. -/
def calculateBandwidth (comps : List Component) (env : MathEnv) : Except Unit ℚ :=
  if comps.length = 0 then Except.ok 0
  else (comps.mapM (fun c => calculateFrequency c env)).map listMax

/-- `CircuitSimulator.simulate`: one snapshot.  `ts` is the simulator's
current `timeStep` (the caller performs the post-increment), `now` is
`Date.now()`.  A throw escaping the per-component recovery (only possible
from `calculateBandwidth`) aborts the whole snapshot, as in the source. -/
def simulate (comps : List Component) (conns : List Connection) (ts : ℚ)
    (env : MathEnv) (now : ℕ) : Except Unit SimResults :=
  if comps.isEmpty then
    Except.ok
      { timestamp := now, timeStep := ts, nodes := [], components := []
        performance := ⟨0, 0, 0, 0, 0, 0⟩ }
  else
    let pairs := comps.map (fun c => (c.id, componentTryBlock c env now))
    let nodes := pairs.map (fun p => (p.1, p.2.1))
    let analyses := pairs.map (fun p => (p.1, p.2.2))
    let nodeValues := nodes.map (fun p => p.2)
    (calculateBandwidth comps env).map (fun bw =>
      { timestamp := now, timeStep := ts, nodes := nodes, components := analyses
        performance :=
          { totalPower := nodeValues.foldl (fun s n => s + jsOr n.power 0) 0
            maxVoltage :=
              if nodeValues.length > 0 then listMax (nodeValues.map (fun n => jsOr n.voltage 0)) else 0
            maxCurrent :=
              if nodeValues.length > 0 then listMax (nodeValues.map (fun n => jsOr n.current 0)) else 0
            efficiency := calculateEfficiency nodes
            propagationDelay := calculatePropagationDelay comps conns
            bandwidth := bw } })

/-- The loop body of `POST /api/designs/:id/simulate`: starting at step
index `i` with `fuel` iterations left, set `simulator.timeStep = i *
stepSize` and push `simulator.simulate()`.  A throw becomes the route's
500 response (no result list). -/
def batchFrom (comps : List Component) (conns : List Connection) (stepSize : ℚ)
    (env : MathEnv) (now : ℕ) : ℕ → ℕ → Except Unit (List SimResults)
  | _, 0 => Except.ok []
  | i, fuel + 1 => do
    let r ← simulate comps conns ((i : ℚ) * stepSize) env now
    let rest ← batchFrom comps conns stepSize env now (i + 1) fuel
    pure (r :: rest)

/-- The batch runner of `POST /api/designs/:id/simulate` (defaults there:
`steps = 100`, `timeStep = 0.001`). -/
def runBatch (comps : List Component) (conns : List Connection) (steps : ℕ)
    (stepSize : ℚ) (env : MathEnv) (now : ℕ) : Except Unit (List SimResults) :=
  batchFrom comps conns stepSize env now 0 steps

/-- A stored design, as kept in the `designs` map.  `componentsAddr` is
the heap address of its components array (JS arrays are references). -/
structure Design where
  componentsAddr : Nat
  connections : List Connection
deriving DecidableEq

/-- A `CircuitSimulator` object.  `componentsAddr` is the address of the
components array the constructor received — for a simulator built by
`startRealTimeSimulation` this is the *same* address as the stored
design's, because the constructor stores the array reference without
copying. -/
structure Simulator where
  designId : String
  componentsAddr : Nat
  connections : List Connection
  isRunning : Bool
  timeStep : ℚ
deriving DecidableEq

/-- The effective streaming config (`config || {updateRate: 100,
duration: 30000}`). -/
structure Config where
  updateRate : ℚ
  duration : ℚ
deriving DecidableEq

/-- One `activeSimulations` entry: the simulator object (by reference)
plus the `setInterval` handle and the config. -/
structure SimEntry where
  simAddr : Nat
  interval : Option Nat
  config : Config
deriving DecidableEq

/-- A live `setInterval` handle: the tick callback's closure captures the
client id and the simulator object (by reference). -/
structure IntervalRec where
  owner : String
  simAddr : Nat
deriving DecidableEq

/-- The mutable server state: the `designs` map, the two heaps realising
JS reference sharing, the `activeSimulations` map, the set of live
`setInterval` handles, the `clients` map (modelled as the list of
connected client ids), and a fresh-address counter standing for object
allocation. -/
structure ServerState where
  designs : List (String × Design)
  compHeap : List (Nat × List Component)
  simHeap : List (Nat × Simulator)
  activeSimulations : List (String × SimEntry)
  intervals : List (Nat × IntervalRec)
  clients : List String
  nextAddr : Nat
deriving DecidableEq

/-- Messages sent over a client's WebSocket, tagged with the recipient. -/
inductive Msg where
  | errorMsg (clientId : String) (text : String)
  | started (clientId : String) (designId : String) (config : Config)
  | simData (clientId : String) (results : SimResults)
  | stopped (clientId : String)
  | updated (clientId : String) (componentId : Nat)
deriving DecidableEq

/-- `startRealTimeSimulation(clientId, designId, config, ws)`.  Note what
the source does for a client that already has an entry: it overwrites the
`activeSimulations` entry and starts a second interval without clearing
the first — the old interval handle is lost and keeps firing. -/
def startRealTimeSimulation (S : ServerState) (clientId designId : String)
    (config : Option Config) : ServerState × List Msg :=
  match alookup S.designs designId with
  | none => (S, [Msg.errorMsg clientId "Design not found"])
  | some d =>
    let cfg := config.getD { updateRate := 100, duration := 30000 }
    let simAddr := S.nextAddr
    let intervalId := S.nextAddr + 1
    let sim : Simulator :=
      { designId := designId, componentsAddr := d.componentsAddr
        connections := d.connections, isRunning := true, timeStep := 0 }
    let S' : ServerState :=
      { S with
        simHeap := aset S.simHeap simAddr sim
        activeSimulations :=
          aset S.activeSimulations clientId
            { simAddr := simAddr, interval := some intervalId, config := cfg }
        intervals := aset S.intervals intervalId ⟨clientId, simAddr⟩
        nextAddr := S.nextAddr + 2 }
    (S', [Msg.started clientId designId cfg])

/-- `stopRealTimeSimulation(clientId)`: flip the running flag on the
entry's simulator, clear the entry's interval, delete the entry, and
notify the client when still connected.  An unknown client is a no-op. -/
def stopRealTimeSimulation (S : ServerState) (clientId : String) :
    ServerState × List Msg :=
  match alookup S.activeSimulations clientId with
  | none => (S, [])
  | some e =>
    let S' : ServerState :=
      { S with
        simHeap := aupdate S.simHeap e.simAddr (fun s => { s with isRunning := false })
        intervals :=
          match e.interval with
          | some intervalId => aerase S.intervals intervalId
          | none => S.intervals
        activeSimulations := aerase S.activeSimulations clientId }
    (S', if clientId ∈ S.clients then [Msg.stopped clientId] else [])

/-- `Object.assign(target, source)` on a properties object; the `TypeError`
when the target is `undefined` is the `Except.error`. -/
def objAssign (target : Option (List (String × PVal)))
    (source : List (String × PVal)) : Except Unit (List (String × PVal)) :=
  match target with
  | none => Except.error ()
  | some ps => Except.ok (source.foldl (fun acc kv => aset acc kv.1 kv.2) ps)

/-- `updateComponentInSimulation(clientId, componentId, properties)`:
merge into the matching component of the simulator's components array —
which, the array being shared by reference, is the stored design's array.
Unknown client or component id is a silent no-op. -/
def updateComponentInSimulation (S : ServerState) (clientId : String)
    (componentId : Nat) (properties : List (String × PVal)) :
    Except Unit (ServerState × List Msg) :=
  match alookup S.activeSimulations clientId with
  | none => Except.ok (S, [])
  | some e =>
    match alookup S.simHeap e.simAddr with
    | none => Except.error ()
    | some sim =>
      match alookup S.compHeap sim.componentsAddr with
      | none => Except.error ()
      | some comps =>
        match comps.find? (fun c => c.id = componentId) with
        | none => Except.ok (S, [])
        | some comp => do
          let merged ← objAssign comp.properties properties
          let comps' := comps.map (fun c =>
            if c.id = componentId then { c with properties := some merged } else c)
          let S' : ServerState :=
            { S with compHeap := aset S.compHeap sim.componentsAddr comps' }
          Except.ok (S',
            if clientId ∈ S.clients then [Msg.updated clientId componentId] else [])

/-- The `ws.on('close')` handler: it deletes the client from the `clients`
map — and nothing else. -/
def closeConnection (S : ServerState) (clientId : String) : ServerState :=
  { S with clients := S.clients.erase clientId }

/-- One firing of a live `setInterval` handle: if the captured simulator's
`isRunning` flag is set, compute a snapshot (post-incrementing the
simulator's `timeStep`) and send it when the client is still connected.
A snapshot that throws (see `C6`) would crash the uncaught callback; here
it simply delivers nothing, which is all the claims under study need. -/
def tick (S : ServerState) (intervalId : Nat) (env : MathEnv) (now : ℕ) :
    ServerState × List Msg :=
  match alookup S.intervals intervalId with
  | none => (S, [])
  | some iv =>
    match alookup S.simHeap iv.simAddr with
    | none => (S, [])
    | some sim =>
      if sim.isRunning then
        match alookup S.compHeap sim.componentsAddr with
        | none => (S, [])
        | some comps =>
          let S' : ServerState :=
            { S with
              simHeap := aupdate S.simHeap iv.simAddr
                (fun s => { s with timeStep := s.timeStep + 1 }) }
          match simulate comps sim.connections sim.timeStep env now with
          | Except.error _ => (S', [])
          | Except.ok results =>
            if iv.owner ∈ S.clients then (S', [Msg.simData iv.owner results])
            else (S', [])
      else (S, [])

/-- A run of timer firings (any interleaving of handles). -/
def runTicks (env : MathEnv) (now : ℕ) : ServerState → List Nat → ServerState × List Msg
  | S, [] => (S, [])
  | S, intervalId :: rest =>
    let p := tick S intervalId env now
    let q := runTicks env now p.1 rest
    (q.1, p.2 ++ q.2)

/-- The snapshot messages a given client receives. -/
def snapshotsTo (clientId : String) (msgs : List Msg) : List Msg :=
  msgs.filter (fun m =>
    match m with
    | Msg.simData c _ => decide (c = clientId)
    | _ => false)

instance {ε α : Type} [DecidableEq ε] [DecidableEq α] : DecidableEq (Except ε α) :=
  fun a b =>
    match a, b with
    | Except.error x, Except.error y =>
        if h : x = y then Decidable.isTrue (by rw [h])
        else Decidable.isFalse (fun hh => h (Except.error.inj hh))
    | Except.ok x, Except.ok y =>
        if h : x = y then Decidable.isTrue (by rw [h])
        else Decidable.isFalse (fun hh => h (Except.ok.inj hh))
    | Except.error _, Except.ok _ => Decidable.isFalse (fun hh => Except.noConfusion hh)
    | Except.ok _, Except.error _ => Decidable.isFalse (fun hh => Except.noConfusion hh)

/-- A deterministic environment for concrete evaluations: `sin` is the
identity, `exp` constantly one, `sqrt` constantly zero, `pi = 1`, and
every `Math.random()` draw is zero. -/
def env0 : MathEnv :=
  { sin := fun q => q, exp := fun _ => 1, sqrt := fun _ => 0, pi := 1
    random := fun _ => 0 }

/-- The resistor of the running example (`resistance` parses to 5000). -/
def rComp : Component := ⟨1, "resistor", "R1", some [("resistance", some 5000)]⟩

/-- A transistor whose `properties` object exists but is empty. -/
def tComp : Component := ⟨1, "transistor", "T", some []⟩

/-- An initial server state: one stored design `d` whose components array
lives in heap cell `0` and holds `rComp`; two connected clients. -/
def st0 : ServerState :=
  { designs := [("d", ⟨0, []⟩)]
    compHeap := [(0, [rComp])]
    simHeap := []
    activeSimulations := []
    intervals := []
    clients := ["c", "c2"]
    nextAddr := 1 }

/-- State after a single `start_simulation` from client `c`. -/
def stS1 : ServerState := (startRealTimeSimulation st0 "c" "d" none).1

/-- State after client `c` sends `start_simulation` twice in a row. -/
def stS2 : ServerState := (startRealTimeSimulation stS1 "c" "d" none).1

/-- State after `update_component` from `c` setting `resistance` to a
value parsing to 2000, in the single-start state. -/
def stUpd : ServerState :=
  match updateComponentInSimulation stS1 "c" 1 [("resistance", some 2000)] with
  | Except.ok p => p.1
  | Except.error _ => stS1

/-- The documented per-type numeric property defaults, exactly the
`parseFloat(...) || d` fallbacks of the source. -/
def typeDefaults (t : String) : List (String × ℚ) :=
  if t = "transistor" then
    [("threshold", 7/10), ("width", 1/10^5), ("length", 5/10^7)]
  else if t = "resistor" then
    [("resistance", 1000), ("power", 25/100)]
  else if t = "capacitor" then
    [("capacitance", 1/10^12), ("voltage", 5)]
  else if t = "inductor" then
    [("inductance", 1/10^6)]
  else if t = "diode" then
    [("forwardVoltage", 7/10)]
  else []

/-- Overwrite one property of a component with a value parsing to `d`. -/
def setCompProp (c : Component) (k : String) (d : ℚ) : Component :=
  { c with properties := c.properties.map (fun ps => aset ps k (some d)) }

/-- The node records a tick computes: one per component, keyed by id,
depending only on the components, the environment and the *wall-clock*
time `now` — not on the simulator's `timeStep`. -/
def nodesAt (comps : List Component) (env : MathEnv) (now : ℕ) : List (Nat × NodeRec) :=
  comps.map (fun c => (c.id, (componentTryBlock c env now).1))

/-- The component analyses of a tick, analogous to `nodesAt`. -/
def analysesAt (comps : List Component) (env : MathEnv) (now : ℕ) : List (Nat × Analysis) :=
  comps.map (fun c => (c.id, (componentTryBlock c env now).2))

theorem qadd_spec (a b : ℚ) : qadd a b = Rat.add a b := by
  have h := Rat.add_def' a b
  rw [Rat.mkRat_eq_divInt, Int.natCast_mul] at h
  rw [qadd,
    show Rat.add a b = Rat.divInt (a.num * b.den + b.num * a.den) ((a.den : ℤ) * b.den) from h]

theorem qneg_spec (a : ℚ) : qneg a = Rat.neg a := by
  have h := Rat.neg_def a
  rw [qneg, show Rat.neg a = Rat.divInt (-a.num) (a.den : ℤ) from h]

theorem qsub_spec (a b : ℚ) : qsub a b = Rat.sub a b := by
  have h := Rat.sub_def' a b
  rw [Rat.mkRat_eq_divInt, Int.natCast_mul] at h
  rw [qsub,
    show Rat.sub a b = Rat.divInt (a.num * b.den - b.num * a.den) ((a.den : ℤ) * b.den) from h]

theorem qmul_spec (a b : ℚ) : qmul a b = Rat.mul a b := by
  have h := Rat.mul_def a b
  rw [Rat.normalize_eq_mkRat, Rat.mkRat_eq_divInt, Int.natCast_mul] at h
  rw [qmul, show Rat.mul a b = Rat.divInt (a.num * b.num) ((a.den : ℤ) * b.den) from h]

theorem qdiv_spec (a b : ℚ) : qdiv a b = Rat.div a b := by
  have h := Rat.div_def' a b
  rw [qdiv, show Rat.div a b = Rat.divInt (a.num * b.den) ((a.den : ℤ) * b.num) from h,
    Int.mul_comm (a.den : ℤ) b.num]

theorem qpow_spec (a : ℚ) (n : ℕ) : qpow a n = Monoid.npow n a := by
  induction n with
  | zero =>
    have h0 : Monoid.npow 0 a = 1 := pow_zero a
    rw [qpow, h0, pow_zero, pow_zero]
    decide
  | succ n ih =>
    have hs : Monoid.npow (n + 1) a = Rat.mul (Monoid.npow n a) a := pow_succ a n
    have h3 := Rat.divInt_mul_divInt' (a.num ^ n) ((a.den : ℤ) ^ n) a.num (a.den : ℤ)
    rw [Rat.num_divInt_den] at h3
    rw [hs, ← ih, qpow, qpow, pow_succ, pow_succ]
    exact h3.symm

theorem alookup_aerase_self {κ α : Type} [DecidableEq κ] (l : List (κ × α)) (k : κ) :
    alookup (aerase l k) k = none := by
  induction l with
  | nil => rfl
  | cons p t ih =>
    by_cases h : p.1 = k
    · simpa [aerase, h] using ih
    · simpa [aerase, alookup, h] using ih

theorem alookup_aupdate_self {κ α : Type} [DecidableEq κ] (l : List (κ × α)) (k : κ) (f : α → α) :
    alookup (aupdate l k f) k = (alookup l k).map f := by
  induction l with
  | nil => rfl
  | cons p t ih =>
    cases p with
    | mk k' v =>
      by_cases h : k' = k
      · simp [aupdate, alookup, h]
      · simpa [aupdate, alookup, h] using ih

theorem alookup_mem {κ α : Type} [DecidableEq κ] {l : List (κ × α)} {k : κ} {v : α}
    (h : alookup l k = some v) : (k, v) ∈ l := by
  induction l with
  | nil => simp [alookup] at h
  | cons p t ih =>
    by_cases hk : p.1 = k
    · cases p
      simp only [alookup, if_pos hk] at h
      cases h; cases hk
      exact List.mem_cons_self _ _
    · simp only [alookup, if_neg hk] at h
      exact List.mem_cons_of_mem _ (ih h)

theorem mem_aerase {κ α : Type} [DecidableEq κ] {l : List (κ × α)} {k : κ} {p : κ × α}
    (h : p ∈ aerase l k) : p ∈ l ∧ p.1 ≠ k := by
  have := List.mem_filter.mp h
  exact ⟨this.1, by simpa using this.2⟩

/-- Claim C1 (code bug).  `new CircuitSimulator(designId, design.components,
design.connections)` stores the components array by reference, so the
session's "working copy" *is* the stored design's array and
`updateComponentInSimulation`'s `Object.assign` mutates the stored design.
Concretely: after `start` then `update` setting `resistance` to 2000, the
heap cell the stored design `d` points to now holds the updated component
(conjuncts 1–3), a fresh session started afterwards for client `c2` is
wired to that same cell (conjunct 4), and evaluating the updated
component yields a different snapshot than the original (conjunct 5) — so
a fresh session does *not* return values unaffected by the update. -/
theorem c1_updateMutatesStoredDesign :
    alookup stUpd.compHeap 0
      = some [⟨1, "resistor", "R1", some [("resistance", some 2000)]⟩]
    ∧ alookup stUpd.designs "d" = some ⟨0, []⟩
    ∧ alookup st0.compHeap 0 ≠ alookup stUpd.compHeap 0
    ∧ (alookup (startRealTimeSimulation stUpd "c2" "d" none).1.simHeap
        stUpd.nextAddr).map Simulator.componentsAddr = some 0
    ∧ simulate [⟨1, "resistor", "R1", some [("resistance", some 2000)]⟩] [] 0 env0 0
        ≠ simulate [rComp] [] 0 env0 0 := by
  decide

/-- Claim C2 (code bug).  A second `start_simulation` for the same client
overwrites the `activeSimulations` entry without stopping the first
session: after two starts by `c` there are two live intervals owned by
`c` (handles 2 and 4), each of which delivers a snapshot to `c` when it
fires, while the registry entry only references handle 4 — handle 2 can
never be cancelled again. -/
theorem c2_doubleStartLeaksTimer :
    (stS2.intervals.filter (fun p => decide (p.2.owner = "c"))).length = 2
    ∧ (alookup stS2.intervals 2).map IntervalRec.owner = some "c"
    ∧ (alookup stS2.intervals 4).map IntervalRec.owner = some "c"
    ∧ (alookup stS2.activeSimulations "c").map SimEntry.interval = some (some 4)
    ∧ snapshotsTo "c" (tick stS2 2 env0 0).2 ≠ []
    ∧ snapshotsTo "c" (tick stS2 4 env0 0).2 ≠ [] := by
  decide

/-- Claim C3 (code bug).  The `ws.on('close')` handler only deletes the
client from the `clients` map: after `c`'s connection closes, its session
is still registered, its interval is still live and its simulator still
running — whereas an explicit stop removes both the session and the
interval. -/
theorem c3_closeDoesNotCleanUp :
    alookup (closeConnection stS1 "c").activeSimulations "c"
      = some { simAddr := 1, interval := some 2, config := ⟨100, 30000⟩ }
    ∧ alookup (closeConnection stS1 "c").intervals 2 = some ⟨"c", 1⟩
    ∧ (alookup (closeConnection stS1 "c").simHeap 1).map Simulator.isRunning = some true
    ∧ ("c" ∉ (closeConnection stS1 "c").clients)
    ∧ alookup (stopRealTimeSimulation stS1 "c").1.activeSimulations "c" = none
    ∧ alookup (stopRealTimeSimulation stS1 "c").1.intervals 2 = none := by
  decide

/-- Claim C6 (code bug).  The per-component `try`/`catch` does degrade a
failing component to the zeroed node record and an `error` analysis
without aborting (first conjunct: a transistor with no `properties`
object).  But `calculateBandwidth` re-evaluates `calculateFrequency` for
every component *outside* that recovery, so a capacitor with no
`properties` object makes the whole snapshot throw — alone or next to a
healthy component — contradicting the claim that the snapshot is always
still produced. -/
theorem c6_bandwidthEscapesRecovery :
    simulate [⟨1, "transistor", "T", none⟩] [] 0 env0 0
      = Except.ok
          { timestamp := 0, timeStep := 0
            nodes := [(1, ⟨0, 0, 0, 25, 1000⟩)]
            components :=
              [(1, { opVoltage := 0, opCurrent := 0, opPower := 0
                     characteristics := [], status := "error" })]
            performance := ⟨0, 0, 0, 0, 10, 10000⟩ }
    ∧ simulate [⟨1, "capacitor", "Cx", none⟩] [] 0 env0 0 = Except.error ()
    ∧ simulate [rComp, ⟨2, "capacitor", "Cx", none⟩] [] 0 env0 0 = Except.error () := by
  decide

/-- Claim C7 (confirmed).  For a design with zero components every
snapshot has empty `nodes` and `components` and the performance record is
exactly `{0, 0, 0, 0, 0, 0}` — for every connection list, time step,
environment and wall-clock time. -/
theorem c7_emptyDesignSnapshot (conns : List Connection) (ts : ℚ) (env : MathEnv)
    (now : ℕ) :
    simulate [] conns ts env now
      = Except.ok
          { timestamp := now, timeStep := ts, nodes := [], components := []
            performance := ⟨0, 0, 0, 0, 0, 0⟩ } :=
  rfl

/-- Claim C9 (confirmed).  For a transistor, `analyzeComponent` sets
`overvoltage` when voltage exceeds 5 and then `overcurrent` when current
exceeds 0.1, in that order, so the second check overwrites: above both
thresholds the status is `overcurrent`; below both it stays `normal`. -/
theorem c9_transistorStatusOrder (idn : Nat) (nm : String)
    (props : Option (List (String × PVal))) (env : MathEnv) (v i : ℚ) :
    (analyzeComponent ⟨idn, "transistor", nm, props⟩ v i env).map Analysis.status
      = Except.ok (if i > 1/10 then "overcurrent" else if v > 5 then "overvoltage" else "normal")
    ∧ (v > 5 → i > 1/10 →
        (analyzeComponent ⟨idn, "transistor", nm, props⟩ v i env).map Analysis.status
          = Except.ok "overcurrent")
    ∧ (v > 5 → ¬ i > 1/10 →
        (analyzeComponent ⟨idn, "transistor", nm, props⟩ v i env).map Analysis.status
          = Except.ok "overvoltage")
    ∧ (¬ v > 5 → ¬ i > 1/10 →
        (analyzeComponent ⟨idn, "transistor", nm, props⟩ v i env).map Analysis.status
          = Except.ok "normal") :=
  ⟨by simp [analyzeComponent, Except.map],
   fun h1 h2 => by simp [analyzeComponent, Except.map, h1, h2],
   fun h1 h2 => by simp [analyzeComponent, Except.map, h1, h2],
   fun h1 h2 => by simp [analyzeComponent, Except.map, h1, h2]⟩

/-- Claim C9, witness: a transistor at voltage 6 and current 1 trips both
checks and reports `overcurrent`. -/
theorem c9_transistorStatusOrder_witness :
    (analyzeComponent ⟨0, "transistor", "T", none⟩ 6 1 env0).map Analysis.status
      = Except.ok "overcurrent" :=
  (c9_transistorStatusOrder 0 "T" none env0 6 1).2.1 (by decide) (by decide)

/-- Claim C10 (confirmed).  `parseFloat(value) || default` replaces a
property parsing to exactly `0` by the default as well; consequently the
effective resistance is never `0` (for any nonzero default), the resistor
current is the exact quotient `voltage / resistance` with a nonzero
divisor — never a division by zero — and a resistor's whole node record
evaluates without error to exact rationals. -/
theorem c10_resistorNeverDividesByZero :
    (∀ (ps : List (String × PVal)) (k : String) (d : ℚ),
        parseProp ps k = some 0 → propOr ps k d = d)
    ∧ (∀ (ps : List (String × PVal)) (d : ℚ), d ≠ 0 → propOr ps "resistance" d ≠ 0)
    ∧ (∀ (idn : Nat) (nm : String) (ps : List (String × PVal)) (env : MathEnv) (v : ℚ),
        calculateCurrent ⟨idn, "resistor", nm, some ps⟩ v env
          = Except.ok (v / propOr ps "resistance" 1000)
        ∧ propOr ps "resistance" 1000 ≠ 0)
    ∧ (∀ (idn : Nat) (nm : String) (ps : List (String × PVal)) (env : MathEnv) (now : ℕ),
        (computeElectricalState ⟨idn, "resistor", nm, some ps⟩ env now).isOk = true) := by
  have hz : ∀ (ps : List (String × PVal)) (d : ℚ), d ≠ 0 → propOr ps "resistance" d ≠ 0 := by
    intro ps d hd
    unfold propOr
    cases hp : parseProp ps "resistance" with
    | none => simpa using hd
    | some q =>
      simp only [jsOr]
      split_ifs with hq
      · exact hd
      · exact hq
  refine ⟨?_, hz, ?_, ?_⟩
  · intro ps k d h
    simp [propOr, h, jsOr]
  · intro idn nm ps env v
    refine ⟨by simp [calculateCurrent, getProps, Except.map], hz ps 1000 (by norm_num)⟩
  · intro idn nm ps env now
    simp [computeElectricalState, calculateNodeVoltage, calculateCurrent,
      calculateFrequency, getProps, Except.map, Bind.bind, Except.bind, Except.isOk,
      Pure.pure, Except.pure, Except.toBool]

/-- Claim C10, witness: with `resistance` parsing to exactly `0`, the
default 1000 is used, the divisor is nonzero, and the current is the
exact quotient. -/
theorem c10_resistorNeverDividesByZero_witness :
    propOr [("resistance", some 0)] "resistance" 1000 = 1000
    ∧ propOr [("resistance", some 0)] "resistance" 1000 ≠ 0
    ∧ calculateCurrent ⟨1, "resistor", "R1", some [("resistance", some 0)]⟩ 33 env0
        = Except.ok (33 / propOr [("resistance", some 0)] "resistance" 1000) :=
  ⟨c10_resistorNeverDividesByZero.1 [("resistance", some 0)] "resistance" 1000 (by decide),
   c10_resistorNeverDividesByZero.2.1 [("resistance", some 0)] 1000 (by decide),
   (c10_resistorNeverDividesByZero.2.2.1 1 "R1" [("resistance", some 0)] env0 33).1⟩

theorem alookup_aset_self {κ α : Type} [DecidableEq κ] (l : List (κ × α)) (k : κ) (v : α) :
    alookup (aset l k v) k = some v := by
  induction l with
  | nil => simp [aset, alookup]
  | cons p t ih =>
    cases p with
    | mk k' v' =>
      by_cases hk : k' = k
      · simp [aset, alookup, hk]
      · simp [aset, alookup, hk, ih]

theorem alookup_aset_ne {κ α : Type} [DecidableEq κ] (l : List (κ × α)) {k k'' : κ}
    (hne : k'' ≠ k) (v : α) : alookup (aset l k v) k'' = alookup l k'' := by
  induction l with
  | nil =>
    simp only [aset, alookup]
    rw [if_neg (fun h => hne h.symm)]
  | cons p t ih =>
    cases p with
    | mk a b =>
      by_cases ha : a = k
      · subst ha
        simp only [aset, alookup, if_pos rfl]
        rw [if_neg (fun h => hne h.symm), if_neg (fun h => hne h.symm)]
      · simp only [aset, alookup, if_neg ha]
        rw [ih]

theorem parseProp_aset_self (ps : List (String × PVal)) (k : String) (v : PVal) :
    parseProp (aset ps k v) k = v := by
  simp [parseProp, alookup_aset_self]

theorem parseProp_aset_ne (ps : List (String × PVal)) {k k' : String}
    (hne : k' ≠ k) (v : PVal) : parseProp (aset ps k v) k' = parseProp ps k' := by
  simp [parseProp, alookup_aset_ne ps hne]

theorem propOr_parse_none {ps : List (String × PVal)} {k : String}
    (h : parseProp ps k = none) (d : ℚ) : propOr ps k d = d := by
  simp [propOr, h]

theorem propOr_aset_self (ps : List (String × PVal)) (k : String) (d : ℚ)
    (hd : d ≠ 0) : propOr (aset ps k (some d)) k d = d := by
  simp [propOr, parseProp_aset_self, jsOr, hd]

theorem propOr_aset_ne (ps : List (String × PVal)) {k k' : String}
    (hne : k' ≠ k) (v : PVal) (d : ℚ) :
    propOr (aset ps k v) k' d = propOr ps k' d := by
  simp [propOr, parseProp_aset_ne ps hne]

theorem typeDefaults_functional (t : String) :
    ∀ k d d', (k, d) ∈ typeDefaults t → (k, d') ∈ typeDefaults t → d = d' := by
  intro k d d' h1 h2
  unfold typeDefaults at h1 h2
  split_ifs at h1 h2 <;>
    simp only [List.mem_cons, List.not_mem_nil, or_false, Prod.mk.injEq] at h1 h2
  · rcases h1 with ⟨rfl, rfl⟩ | ⟨rfl, rfl⟩ | ⟨rfl, rfl⟩ <;>
      rcases h2 with ⟨hh, rfl⟩ | ⟨hh, rfl⟩ | ⟨hh, rfl⟩ <;>
      first | rfl | exact absurd hh (by decide)
  · rcases h1 with ⟨rfl, rfl⟩ | ⟨rfl, rfl⟩ <;>
      rcases h2 with ⟨hh, rfl⟩ | ⟨hh, rfl⟩ <;>
      first | rfl | exact absurd hh (by decide)
  · rcases h1 with ⟨rfl, rfl⟩ | ⟨rfl, rfl⟩ <;>
      rcases h2 with ⟨hh, rfl⟩ | ⟨hh, rfl⟩ <;>
      first | rfl | exact absurd hh (by decide)
  · rcases h1 with ⟨rfl, rfl⟩
    rcases h2 with ⟨hh, rfl⟩
    rfl
  · rcases h1 with ⟨rfl, rfl⟩
    rcases h2 with ⟨hh, rfl⟩
    rfl

theorem typeDefaults_ne_zero (t : String) :
    ∀ k d, (k, d) ∈ typeDefaults t → d ≠ 0 := by
  intro k d h
  unfold typeDefaults at h
  split_ifs at h <;>
    simp only [List.mem_cons, List.not_mem_nil, or_false, Prod.mk.injEq] at h
  · rcases h with ⟨_, rfl⟩ | ⟨_, rfl⟩ | ⟨_, rfl⟩ <;> decide
  · rcases h with ⟨_, rfl⟩ | ⟨_, rfl⟩ <;> decide
  · rcases h with ⟨_, rfl⟩ | ⟨_, rfl⟩ <;> decide
  · rcases h with ⟨_, rfl⟩
    decide
  · rcases h with ⟨_, rfl⟩
    decide

/-- The model functions read a component's properties only through
`propOr` at the keys and defaults listed in `typeDefaults`: two property
lists that agree there produce identical voltages, currents, frequencies
and analyses. -/
theorem model_propOr_congr (cid : Nat) (nm t : String)
    (ps ps' : List (String × PVal))
    (hagree : ∀ k d, (k, d) ∈ typeDefaults t → propOr ps k d = propOr ps' k d) :
    (∀ env now, calculateNodeVoltage ⟨cid, t, nm, some ps⟩ env now
        = calculateNodeVoltage ⟨cid, t, nm, some ps'⟩ env now)
    ∧ (∀ (w : ℚ) env, calculateCurrent ⟨cid, t, nm, some ps⟩ w env
        = calculateCurrent ⟨cid, t, nm, some ps'⟩ w env)
    ∧ (∀ env, calculateFrequency ⟨cid, t, nm, some ps⟩ env
        = calculateFrequency ⟨cid, t, nm, some ps'⟩ env)
    ∧ (∀ (v i : ℚ) env, analyzeComponent ⟨cid, t, nm, some ps⟩ v i env
        = analyzeComponent ⟨cid, t, nm, some ps'⟩ v i env) := by
  by_cases h1 : t = "transistor"
  · subst h1
    have a1 := hagree "threshold" (7/10) (by simp [typeDefaults])
    have a2 := hagree "width" (1/10^5) (by simp [typeDefaults])
    have a3 := hagree "length" (5/10^7) (by simp [typeDefaults])
    exact ⟨fun env now => by simp [calculateNodeVoltage, getProps, Except.map, a1],
      fun w env => by simp [calculateCurrent, getProps, Except.map, a2, a3],
      fun env => by simp [calculateFrequency, getProps, Except.map],
      fun v i env => by simp [analyzeComponent, getProps, Except.map]⟩
  · by_cases h2 : t = "resistor"
    · subst h2
      have a1 := hagree "resistance" 1000 (by simp [typeDefaults])
      have a2 := hagree "power" (25/100) (by simp [typeDefaults])
      exact ⟨fun env now => by simp [calculateNodeVoltage, getProps, Except.map, a1],
        fun w env => by simp [calculateCurrent, getProps, Except.map, a1],
        fun env => by simp [calculateFrequency, getProps, Except.map],
        fun v i env => by simp [analyzeComponent, getProps, Except.map, a1, a2]⟩
    · by_cases h3 : t = "capacitor"
      · subst h3
        have a1 := hagree "capacitance" (1/10^12) (by simp [typeDefaults])
        have a2 := hagree "voltage" 5 (by simp [typeDefaults])
        exact ⟨fun env now => by simp [calculateNodeVoltage, getProps, Except.map, a1],
          fun w env => by simp [calculateCurrent, getProps, Except.map, a1],
          fun env => by simp [calculateFrequency, getProps, Except.map, a1],
          fun v i env => by simp [analyzeComponent, getProps, Except.map, a1, a2]⟩
      · by_cases h4 : t = "inductor"
        · subst h4
          have a1 := hagree "inductance" (1/10^6) (by simp [typeDefaults])
          exact ⟨fun env now => by simp [calculateNodeVoltage, getProps, Except.map, h1, h2, h3],
            fun w env => by simp [calculateCurrent, getProps, Except.map, h1, h2, h3, a1],
            fun env => by simp [calculateFrequency, getProps, Except.map, h1, h3],
            fun v i env => by simp [analyzeComponent, getProps, Except.map, h1, h2, h3]⟩
        · by_cases h5 : t = "diode"
          · subst h5
            have a1 := hagree "forwardVoltage" (7/10) (by simp [typeDefaults])
            exact ⟨fun env now => by simp [calculateNodeVoltage, getProps, Except.map, h1, h2, h3, h4, a1],
              fun w env => by simp [calculateCurrent, getProps, Except.map, h1, h2, h3, h4],
              fun env => by simp [calculateFrequency, getProps, Except.map, h1, h3],
              fun v i env => by simp [analyzeComponent, getProps, Except.map, h1, h2, h3]⟩
          · exact ⟨fun env now => by simp [calculateNodeVoltage, getProps, Except.map, h1, h2, h3, h4, h5],
              fun w env => by simp [calculateCurrent, getProps, Except.map, h1, h2, h3, h4],
              fun env => by simp [calculateFrequency, getProps, Except.map, h1, h3],
              fun v i env => by simp [analyzeComponent, getProps, Except.map, h1, h2, h3]⟩

/-- Claim C8 (confirmed).  For a component whose `properties` object
exists, `computeElectricalState` and `analyzeComponent` never throw, and
whenever one of the type's numeric properties is missing or fails to
parse (`parseProp … = none`), the result is exactly the result of
evaluating the same formulas with the type's documented default value
stored in its place. -/
theorem c8_missingPropertyDefaults (c : Component) (ps : List (String × PVal))
    (h : c.properties = some ps) (env : MathEnv) (now : ℕ) (v i : ℚ) :
    (computeElectricalState c env now).isOk = true
    ∧ (analyzeComponent c v i env).isOk = true
    ∧ ∀ k d, (k, d) ∈ typeDefaults c.type → parseProp ps k = none →
        computeElectricalState c env now
          = computeElectricalState (setCompProp c k d) env now
        ∧ analyzeComponent c v i env = analyzeComponent (setCompProp c k d) v i env := by
  obtain ⟨cid, t, nm, props⟩ := c
  simp only [Component.properties] at h
  subst h
  have hv : ∃ q, calculateNodeVoltage ⟨cid, t, nm, some ps⟩ env now = Except.ok q := by
    unfold calculateNodeVoltage
    split_ifs <;> exact ⟨_, rfl⟩
  have hcur : ∀ w : ℚ, ∃ q, calculateCurrent ⟨cid, t, nm, some ps⟩ w env = Except.ok q := by
    intro w
    unfold calculateCurrent
    split_ifs <;> exact ⟨_, rfl⟩
  have hfreq : ∃ q, calculateFrequency ⟨cid, t, nm, some ps⟩ env = Except.ok q := by
    unfold calculateFrequency
    split_ifs <;> exact ⟨_, rfl⟩
  have hana : ∃ a, analyzeComponent ⟨cid, t, nm, some ps⟩ v i env = Except.ok a := by
    unfold analyzeComponent
    split_ifs <;> exact ⟨_, rfl⟩
  refine ⟨?_, ?_, ?_⟩
  · obtain ⟨qv, hqv⟩ := hv
    obtain ⟨qi, hqi⟩ := hcur qv
    obtain ⟨qf, hqf⟩ := hfreq
    simp [computeElectricalState, hqv, hqi, hqf, Bind.bind, Except.bind,
      Pure.pure, Except.pure, Except.isOk, Except.toBool]
  · obtain ⟨a, ha⟩ := hana
    simp [ha, Except.isOk, Except.toBool]
  · intro k d hmem hparse
    simp only [Component.type] at hmem
    have hagree : ∀ k' d', (k', d') ∈ typeDefaults t →
        propOr ps k' d' = propOr (aset ps k (some d)) k' d' := by
      intro k' d' hmem'
      by_cases hk : k' = k
      · subst hk
        have hd : d = d' := typeDefaults_functional t k' d d' hmem hmem'
        subst hd
        rw [propOr_parse_none hparse,
          propOr_aset_self ps k' d (typeDefaults_ne_zero t k' d hmem)]
      · rw [propOr_aset_ne ps hk]
    have hcong := model_propOr_congr cid nm t ps (aset ps k (some d)) hagree
    have hsc : setCompProp ⟨cid, t, nm, some ps⟩ k d
        = ⟨cid, t, nm, some (aset ps k (some d))⟩ := rfl
    refine ⟨?_, ?_⟩
    · rw [hsc]
      simp only [computeElectricalState, hcong.1, hcong.2.1, hcong.2.2.1]
    · rw [hsc]
      exact hcong.2.2.2 v i env

/-- Claim C8, witness: a resistor whose `resistance` entry fails to parse
is evaluated exactly as if `resistance` held the documented default 1000,
and neither `computeElectricalState` nor `analyzeComponent` throws. -/
theorem c8_missingPropertyDefaults_witness :
    (computeElectricalState ⟨1, "resistor", "R1", some [("resistance", none)]⟩ env0 0).isOk
      = true
    ∧ computeElectricalState ⟨1, "resistor", "R1", some [("resistance", none)]⟩ env0 0
        = computeElectricalState
            (setCompProp ⟨1, "resistor", "R1", some [("resistance", none)]⟩ "resistance" 1000)
            env0 0
    ∧ analyzeComponent ⟨1, "resistor", "R1", some [("resistance", none)]⟩ 1 1 env0
        = analyzeComponent
            (setCompProp ⟨1, "resistor", "R1", some [("resistance", none)]⟩ "resistance" 1000)
            1 1 env0 := by
  have h := c8_missingPropertyDefaults ⟨1, "resistor", "R1", some [("resistance", none)]⟩
    [("resistance", none)] rfl env0 0 1 1
  have h3 := h.2.2 "resistance" 1000 (by decide) (by decide)
  exact ⟨h.1, h3.1, h3.2⟩

theorem calculateFrequency_ok_of_props (c : Component)
    (hc : c.properties.isSome = true) (env : MathEnv) :
    ∃ q, calculateFrequency c env = Except.ok q := by
  obtain ⟨ps, hps⟩ := Option.isSome_iff_exists.mp hc
  have hg : getProps c = Except.ok ps := by simp [getProps, hps]
  unfold calculateFrequency
  split_ifs
  · exact ⟨_, rfl⟩
  · rw [hg]
    exact ⟨_, rfl⟩
  · exact ⟨_, rfl⟩

theorem calculateBandwidth_ok (comps : List Component)
    (h : ∀ c ∈ comps, c.properties.isSome = true) (env : MathEnv) :
    ∃ b, calculateBandwidth comps env = Except.ok b := by
  unfold calculateBandwidth
  split_ifs with hc
  · exact ⟨0, rfl⟩
  · suffices hs : ∃ l, comps.mapM (fun c => calculateFrequency c env) = Except.ok l by
      obtain ⟨l, hl⟩ := hs
      rw [hl]
      exact ⟨_, rfl⟩
    clear hc
    induction comps with
    | nil => exact ⟨[], rfl⟩
    | cons a t ih =>
      obtain ⟨q, hq⟩ := calculateFrequency_ok_of_props a (h a (List.mem_cons_self a t)) env
      obtain ⟨l, hl⟩ := ih (fun c hct => h c (List.mem_cons_of_mem a hct))
      refine ⟨q :: l, ?_⟩
      rw [List.mapM_cons, hq, hl]
      rfl

theorem simulate_ok_of_props (comps : List Component) (conns : List Connection)
    (ts : ℚ) (env : MathEnv) (now : ℕ)
    (h : ∀ c ∈ comps, c.properties.isSome = true) :
    ∃ r, simulate comps conns ts env now = Except.ok r
      ∧ r.timeStep = ts ∧ r.timestamp = now
      ∧ r.nodes = nodesAt comps env now
      ∧ r.components = analysesAt comps env now := by
  by_cases hc : comps.isEmpty
  · have hnil : comps = [] := List.isEmpty_iff.mp hc
    subst hnil
    exact ⟨_, rfl, rfl, rfl, rfl, rfl⟩
  · obtain ⟨bw, hbw⟩ := calculateBandwidth_ok comps h env
    unfold simulate
    rw [if_neg hc, hbw]
    exact ⟨_, rfl, rfl, rfl,
      by simp [nodesAt, List.map_map, Function.comp, Except.map],
      by simp [analysesAt, List.map_map, Function.comp, Except.map]⟩

theorem batchFrom_ok (comps : List Component) (conns : List Connection)
    (ss : ℚ) (env : MathEnv) (now : ℕ)
    (h : ∀ c ∈ comps, c.properties.isSome = true) :
    ∀ fuel i, ∃ rs, batchFrom comps conns ss env now i fuel = Except.ok rs
      ∧ rs.length = fuel
      ∧ ∀ j (hj : j < rs.length),
          (rs.get ⟨j, hj⟩).timeStep = ((i + j : ℕ) : ℚ) * ss
          ∧ (rs.get ⟨j, hj⟩).nodes = nodesAt comps env now := by
  intro fuel
  induction fuel with
  | zero =>
    intro i
    exact ⟨[], rfl, rfl, fun j hj => absurd hj (by simp)⟩
  | succ n ih =>
    intro i
    obtain ⟨r, hr, hts, _, hnodes, _⟩ :=
      simulate_ok_of_props comps conns ((i : ℚ) * ss) env now h
    obtain ⟨rs, hrs, hlen, hget⟩ := ih (i + 1)
    refine ⟨r :: rs, ?_, by simp [hlen], ?_⟩
    · simp [batchFrom, hr, hrs, Bind.bind, Except.bind, Pure.pure, Except.pure]
    · intro j hj
      cases j with
      | zero =>
        refine ⟨?_, hnodes⟩
        rw [show ((i + 0 : ℕ) : ℚ) = (i : ℚ) by norm_num]
        exact hts
      | succ m =>
        have hm : m < rs.length := by
          simpa [Nat.succ_lt_succ_iff] using hj
        have heq : i + 1 + m = i + (m + 1) := by omega
        refine ⟨?_, ((hget m hm).2 : _)⟩
        have := (hget m hm).1
        rw [heq] at this
        exact this

/-- Claim C4 (corrected).  The batch route does set `simulator.timeStep =
i * stepSize` before the i-th snapshot, which becomes that snapshot's
`timeStep` label, and it returns exactly `steps` snapshots (the empty
sequence when `steps = 0`); but the per-type voltage laws read
`Date.now()` — every snapshot's node records equal `nodesAt comps env
now`, which depends only on the wall-clock `now`, not on `i * stepSize`.
(The hypothesis that every component carries a `properties` object keeps
the evaluation throw-free; cf. claim C6.) -/
theorem c4_batchLabelsSimulatedTimeButUsesWallClock (comps : List Component)
    (conns : List Connection) (steps : ℕ) (stepSize : ℚ) (env : MathEnv) (now : ℕ)
    (h : ∀ c ∈ comps, c.properties.isSome = true) :
    ∃ rs, runBatch comps conns steps stepSize env now = Except.ok rs
      ∧ rs.length = steps
      ∧ ∀ j (hj : j < rs.length),
          (rs.get ⟨j, hj⟩).timeStep = (j : ℚ) * stepSize
          ∧ (rs.get ⟨j, hj⟩).nodes = nodesAt comps env now := by
  obtain ⟨rs, hrs, hlen, hget⟩ := batchFrom_ok comps conns stepSize env now h steps 0
  refine ⟨rs, hrs, hlen, fun j hj => ⟨?_, (hget j hj).2⟩⟩
  have := (hget j hj).1
  rw [show (0 + j : ℕ) = j by omega] at this
  exact this

set_option maxRecDepth 400000 in
set_option maxHeartbeats 1000000 in
/-- Claim C4, counterexample to the claim as stated: with every noise
draw zeroed and `sin` the identity, the same batch request issued at
wall-clock 0 and at wall-clock 1000 returns different snapshots, while
changing `stepSize` from 1 to 1000 (so changing every simulated time)
leaves every node record identical — the oscillation terms are evaluated
at wall-clock time, not at the caller-controlled simulated time. -/
theorem c4_wallClock_counterexample :
    runBatch [tComp] [] 1 1 env0 0 ≠ runBatch [tComp] [] 1 1 env0 1000
    ∧ (runBatch [tComp] [] 2 1 env0 0).map (List.map SimResults.nodes)
        = (runBatch [tComp] [] 2 1000 env0 0).map (List.map SimResults.nodes) := by
  decide

/-- Claim C4, witness: the amended theorem applied to a concrete design,
`steps = 2`, `stepSize = 1`. -/
theorem c4_batchLabelsSimulatedTimeButUsesWallClock_witness :
    (runBatch [rComp] [] 2 1 env0 0).map List.length = Except.ok 2 := by
  obtain ⟨rs, hrs, hlen, _⟩ :=
    c4_batchLabelsSimulatedTimeButUsesWallClock [rComp] [] 2 1 env0 0 (by decide)
  simp [hrs, hlen, Except.map]
































theorem tick_intervals (S : ServerState) (i : Nat) (env : MathEnv) (now : ℕ) :
    (tick S i env now).1.intervals = S.intervals := by
  unfold tick
  repeat' split <;> try rfl

theorem tick_noDelivery (S : ServerState) (c : String) (i : Nat) (env : MathEnv)
    (now : ℕ) (h : ∀ p ∈ S.intervals, (p : Nat × IntervalRec).2.owner ≠ c) :
    snapshotsTo c (tick S i env now).2 = [] := by
  unfold tick
  split
  · rfl
  · rename_i iv h1
    have hne : iv.owner ≠ c := h (i, iv) (alookup_mem h1)
    split
    · rfl
    · split
      · split
        · rfl
        · split
          · rfl
          · split <;> simp [snapshotsTo, hne]
      · rfl

theorem runTicks_noDelivery (c : String) (env : MathEnv) (now : ℕ) :
    ∀ (ids : List Nat) (S : ServerState),
      (∀ p ∈ S.intervals, (p : Nat × IntervalRec).2.owner ≠ c) →
      snapshotsTo c (runTicks env now S ids).2 = [] := by
  intro ids
  induction ids with
  | nil => intro S _; rfl
  | cons i rest ih =>
    intro S h
    have ha := tick_noDelivery S c i env now h
    have hb := ih (tick S i env now).1 (by rw [tick_intervals]; exact h)
    unfold snapshotsTo at ha hb ⊢
    simp only [runTicks]
    rw [List.filter_append, ha, hb]
    rfl

/-- Claim C5 (corrected).  `stopRealTimeSimulation` is a silent no-op for
an unknown observer, idempotent, and for an active session it flips the
simulator's running flag, cancels the session's interval and removes the
session from the registry.  *Provided* every live interval owned by the
observer is the session's own interval — true in a normal single-start
lifecycle but violated after a double start, see the counterexample — no
tick thereafter delivers any snapshot to that observer. -/
theorem c5_stopSpec (S : ServerState) (c : String) (env : MathEnv) (now : ℕ) :
    (alookup S.activeSimulations c = none → stopRealTimeSimulation S c = (S, []))
    ∧ stopRealTimeSimulation (stopRealTimeSimulation S c).1 c
        = ((stopRealTimeSimulation S c).1, [])
    ∧ ∀ e, alookup S.activeSimulations c = some e →
        alookup (stopRealTimeSimulation S c).1.activeSimulations c = none
        ∧ (∀ intervalId, e.interval = some intervalId →
            alookup (stopRealTimeSimulation S c).1.intervals intervalId = none)
        ∧ alookup (stopRealTimeSimulation S c).1.simHeap e.simAddr
            = (alookup S.simHeap e.simAddr).map (fun s => { s with isRunning := false })
        ∧ ((∀ p ∈ S.intervals, (p : Nat × IntervalRec).2.owner = c →
              e.interval = some p.1) →
            ∀ ids, snapshotsTo c
              (runTicks env now (stopRealTimeSimulation S c).1 ids).2 = []) := by
  refine ⟨?_, ?_, ?_⟩
  · intro h
    simp [stopRealTimeSimulation, h]
  · cases h : alookup S.activeSimulations c with
    | none =>
      simp [stopRealTimeSimulation, h]
    | some e =>
      simp only [stopRealTimeSimulation, h]
      simp [stopRealTimeSimulation, alookup_aerase_self]
  · intro e he
    refine ⟨?_, ?_, ?_, ?_⟩
    · simp [stopRealTimeSimulation, he, alookup_aerase_self]
    · intro intervalId hiv
      simp [stopRealTimeSimulation, he, hiv, alookup_aerase_self]
    · simp [stopRealTimeSimulation, he, alookup_aupdate_self]
    · intro hwf ids
      apply runTicks_noDelivery
      intro p hp hc
      simp only [stopRealTimeSimulation, he] at hp
      cases hin : e.interval with
      | none =>
        rw [hin] at hp
        have := hwf p hp hc
        rw [hin] at this
        exact Option.noConfusion this
      | some intervalId =>
        rw [hin] at hp
        obtain ⟨hmem, hne⟩ := mem_aerase hp
        have := hwf p hmem hc
        rw [hin] at this
        exact hne (Option.some.inj this).symm

/-- Claim C5, counterexample to the claim as stated: in the double-start
state of claim C2, `c` has an active session; stopping it removes that
session, cancels its interval and emits the stop event — and yet the
leaked first interval still delivers a snapshot to `c` afterwards. -/
theorem c5_stop_counterexample :
    alookup stS2.activeSimulations "c" ≠ none
    ∧ (stopRealTimeSimulation stS2 "c").2 = [Msg.stopped "c"]
    ∧ alookup (stopRealTimeSimulation stS2 "c").1.activeSimulations "c" = none
    ∧ snapshotsTo "c" (tick (stopRealTimeSimulation stS2 "c").1 2 env0 0).2 ≠ [] := by
  decide

/-- Claim C5, witness: in the single-start state, stop removes the
session and no run of timer firings afterwards delivers anything to `c`;
a second stop is a silent no-op. -/
theorem c5_stopSpec_witness :
    alookup (stopRealTimeSimulation stS1 "c").1.activeSimulations "c" = none
    ∧ snapshotsTo "c"
        (runTicks env0 0 (stopRealTimeSimulation stS1 "c").1 [2, 2, 4]).2 = []
    ∧ stopRealTimeSimulation (stopRealTimeSimulation stS1 "c").1 "c"
        = ((stopRealTimeSimulation stS1 "c").1, []) := by
  have h := c5_stopSpec stS1 "c" env0 0
  have h3 := h.2.2 { simAddr := 1, interval := some 2, config := ⟨100, 30000⟩ } (by decide)
  exact ⟨h3.1, h3.2.2.2 (by decide) [2, 2, 4], h.2.1⟩

end VelocityChip
